import Mathlib

/-!
Shallow embedding of `src/data_analysis_mcp.py` (a data-analysis toolkit over an
embedded SQLite store, driven by pandas), together with proofs settling the
frozen claims C1–C10 about it.

Modelling conventions:
* Python strings are Lean `String`s; the character-level operations
  (`str.strip`, `str.upper`, `str.lower`, `in`, `startswith`) are re-implemented
  over `List Char` below, restricted to the ASCII behaviour the queries use.
* A pandas `DataFrame` is a `DF`: a list of named columns, each knowing whether
  pandas classified it as numeric and carrying its cells (`none` = null/NaN).
  Cell payloads are `ℚ` (exact rationals stand in for the floats; the claims
  under test are about structure and thresholds, not float error).
* External libraries (the sqlite engine for arbitrary SQL, chardet, the pandas
  file readers, `DataFrame.corr`) are oracles passed in as function parameters;
  the repository's own logic (gating, fallback chains, replace semantics,
  thresholding, report assembly) is translated line by line.
* The process-wide `_db_connections` dict is an explicit `Registry` value
  threaded through the operations; `uuid.uuid4().hex[:8]` is an oracle
  `supply : Nat → List Char` consumed at an increasing index.
-/

namespace DataAnalysis

/-! ## Character/string helpers (Python `str` operations, ASCII fragment) -/

/-- Characters removed by Python `str.strip()` (ASCII whitespace fragment). -/
def pySpace (c : Char) : Bool :=
  c = ' ' || c = '\t' || c = '\n' || c = '\r' || c = '\x0b' || c = '\x0c'

/-- Python `s.strip()`. -/
def pyStrip (s : String) : String :=
  String.mk (((s.toList.dropWhile pySpace).reverse.dropWhile pySpace).reverse)

/-- Python `s.upper()` (ASCII). -/
def pyUpperL (l : List Char) : List Char := l.map Char.toUpper

/-- Python `s.lower()` (ASCII). -/
def pyLower (s : String) : String := String.mk (s.toList.map Char.toLower)

/-- `listStartsWith pat l` : does `l` start with `pat`? (Python `startswith`.) -/
def listStartsWith : List Char → List Char → Bool
  | [], _ => true
  | _ :: _, [] => false
  | p :: ps, c :: cs => p = c && listStartsWith ps cs

/-- `containsSub pat l` : does `pat` occur as a contiguous run of `l`?
(Python `pat in l`.) -/
def containsSub (pat : List Char) : List Char → Bool
  | [] => listStartsWith pat []
  | c :: cs => listStartsWith pat (c :: cs) || containsSub pat cs

/-- `table_name = file_path.stem.replace(' ', '_').replace('-', '_')`. -/
def normalizeName (s : String) : String :=
  String.mk (s.toList.map fun c => if c = ' ' ∨ c = '-' then '_' else c)

/-- Python `a or b` for an optional string: `none` and `""` are falsy. -/
def pyOrStr (a : Option String) (b : String) : String :=
  match a with
  | none => b
  | some s => if s = "" then b else s

/-! ## Python `round` (banker's rounding) on exact rationals -/

/-- Python `abs(q)` (written out so that it evaluates by `decide`). -/
def ratAbs (q : ℚ) : ℚ := if q < 0 then -q else q

theorem ratAbs_eq_abs (q : ℚ) : ratAbs q = |q| := by
  unfold ratAbs
  by_cases h : q < 0
  · rw [if_pos h, abs_of_neg h]
  · rw [if_neg h, abs_of_nonneg (not_lt.mp h)]

/-- Round `n / d` (with `d > 0`) half-to-even to an integer, computed on
integers so that it evaluates by `decide`: `f = ⌊n/d⌋` and the fractional part
`n/d - f` is compared with `1/2` through `t = 2*(n - f*d)` versus `d`. -/
def halfEvenDiv (n d : ℤ) : ℤ :=
  let f : ℤ := Int.fdiv n d
  let t : ℤ := 2 * (n - f * d)
  if t < d then f
  else if d < t then f + 1
  else if f % 2 = 0 then f else f + 1

/-- Python `round(q, 2)` : round-half-even of `q*100`, divided by 100
(`q*100 = (q.num*100)/q.den` as an exact fraction). -/
def pyRound2 (q : ℚ) : ℚ := mkRat (halfEvenDiv (q.num * 100) (q.den : ℤ)) 100

/-- Python `round(q, 3)`. -/
def pyRound3 (q : ℚ) : ℚ := mkRat (halfEvenDiv (q.num * 1000) (q.den : ℤ)) 1000

/-! ## DataFrames -/

/-- One pandas column: its name, whether `select_dtypes(include=['number'])`
keeps it, and its cells (`none` is a null/NaN). -/
structure Column where
  name : String
  numeric : Bool
  cells : List (Option ℚ)
deriving DecidableEq, Repr

/-- A pandas `DataFrame`. -/
structure DF where
  cols : List Column
deriving DecidableEq, Repr

/-- `len(df)` — the row count (all columns of a real frame share one index). -/
def DF.nrows (df : DF) : Nat :=
  (df.cols.head?.map fun c => c.cells.length).getD 0

/-- `df.columns.tolist()`. -/
def DF.colNames (df : DF) : List String := df.cols.map (·.name)

/-- The dtype string pandas would print for a column (model: numeric columns
print as "float64", the rest as "object"). -/
def dtypeStr (c : Column) : String := if c.numeric then "float64" else "object"

/-- Names of the numeric columns, `df.select_dtypes(include=['number']).columns`. -/
def DF.numericNames (df : DF) : List String :=
  (df.cols.filter (·.numeric)).map (·.name)

/-- Row `i` of the frame as a record (column name ↦ value). -/
def DF.record (df : DF) (i : Nat) : List (String × Option ℚ) :=
  df.cols.map fun c => (c.name, c.cells.getD i none)

/-- `df.to_dict('records')`. -/
def DF.records (df : DF) : List (List (String × Option ℚ)) :=
  (List.range df.nrows).map df.record

/-- `df[col].isnull().sum()` for one column. -/
def missingCount (c : Column) : Nat := c.cells.countP (·.isNone)

/-- SQL `MIN(col)` (ignores nulls; `none` when no non-null value exists). -/
def sqlMin (cells : List (Option ℚ)) : Option ℚ :=
  (cells.filterMap id).foldl
    (fun acc v =>
      match acc with
      | none => some v
      | some m => some (if v < m then v else m))
    none

/-- SQL `MAX(col)`. -/
def sqlMax (cells : List (Option ℚ)) : Option ℚ :=
  (cells.filterMap id).foldl
    (fun acc v =>
      match acc with
      | none => some v
      | some m => some (if m < v then v else m))
    none

/-- Exact rational addition written through `mkRat` (so that it evaluates by
`decide`; equal to `a + b`). -/
def qAdd (a b : ℚ) : ℚ := mkRat (a.num * (b.den : ℤ) + b.num * (a.den : ℤ))
  (a.den * b.den)

/-- Exact sum of a list of rationals. -/
def qSum (l : List ℚ) : ℚ := l.foldl qAdd 0

/-- SQL `AVG(col)` : `NULL` when every cell is null, else the exact mean of
the non-null cells (`sum / count` as one normalized fraction). -/
def sqlAvg (cells : List (Option ℚ)) : Option ℚ :=
  if (cells.filterMap id).length = 0 then none
  else some (mkRat (qSum (cells.filterMap id)).num
    ((qSum (cells.filterMap id)).den * (cells.filterMap id).length))

/-- Line 257: `"avg": round(avg_val, 2) if avg_val else None` — the truthiness
guard sends both SQL `NULL` and an exact average of `0` to `None`. -/
def reportedAvg (avg : Option ℚ) : Option ℚ :=
  match avg with
  | none => none
  | some v => if v = 0 then none else some (pyRound2 v)

/-- `df.dtypes.value_counts().to_dict()` : dtype string ↦ column count. -/
def dtypeCounts (df : DF) : List (String × Nat) :=
  let ds := df.cols.map dtypeStr
  ds.dedup.map fun d => (d, ds.count d)

/-- Count of rows that duplicate an earlier row (`df.duplicated().sum()`). -/
def dupCountAux [DecidableEq α] : List α → List α → Nat
  | _, [] => 0
  | seen, r :: rs => (if r ∈ seen then 1 else 0) + dupCountAux (r :: seen) rs

/-- `df.duplicated().sum()`. -/
def DF.dupRowCount (df : DF) : Nat := dupCountAux [] df.records

/-- `df[col].nunique()` (pandas drops nulls before counting distinct values). -/
def nunique (c : Column) : Nat := (c.cells.filterMap id).dedup.length

/-- Lines 375–379: per-column distinct-value counts, kept only when the column
has at least one repeated value. -/
def DF.uniqueCounts (df : DF) : List (String × Nat) :=
  df.cols.filterMap fun c =>
    if nunique c < df.nrows then some (c.name, nunique c) else none

/-! ## The store registry (`_db_connections` and `get_or_create_db`) -/

/-- One value of the `_db_connections` dict: the sqlite connection (identified
by `connId`), the temp-file path, the backing sqlite file's current tables
(`store`, keyed by table name — the authoritative catalog `sqlite_master`
reflects) and the bookkeeping `'tables'` set (modelled as a duplicate-free
insertion list). -/
structure DBEntry where
  connId : Nat
  path : List Char
  store : List (String × DF)
  tables : List String
deriving DecidableEq, Repr

/-- The process-global state: `_db_connections` plus the index of the next
unconsumed value of the uuid oracle. -/
structure Registry where
  conns : List (String × DBEntry)
  uuidSeq : Nat
deriving DecidableEq, Repr

/-- `db_name in _db_connections` / `_db_connections[db_name]`. -/
def lookupEntry (r : Registry) (name : String) : Option DBEntry :=
  (r.conns.find? fun p => p.1 == name).map (·.2)

/-- Overwrite the entry stored under `name` (a dict update in place). -/
def updateEntry (r : Registry) (name : String) (e : DBEntry) : Registry :=
  { r with conns := r.conns.map fun p => if p.1 == name then (p.1, e) else p }

/-- Line 26: `os.path.join(temp_dir, f"data_analysis_{db_name}_{uuid.uuid4().hex[:8]}.db")`,
with the uuid oracle `supply` read at index `i` (the temp-dir part is a fixed
common root and is dropped). -/
def mkDbPath (supply : Nat → List Char) (name : String) (i : Nat) : List Char :=
  ("data_analysis_" ++ name ++ "_").toList ++ supply i ++ ".db".toList

/-- Lines 19–33, `get_or_create_db`: return the connection for `db_name`,
creating a fresh empty database at a fresh uuid-suffixed temp path on the
first call for that name. -/
def get_or_create_db (supply : Nat → List Char) (r : Registry) (name : String) :
    DBEntry × Registry :=
  match lookupEntry r name with
  | some e => (e, r)
  | none =>
    let e : DBEntry :=
      { connId := r.uuidSeq, path := mkDbPath supply name r.uuidSeq,
        store := [], tables := [] }
    (e, { conns := r.conns ++ [(name, e)], uuidSeq := r.uuidSeq + 1 })

/-- `SELECT * FROM name` / existence of a table in the backing sqlite file. -/
def lookupTable (s : List (String × DF)) (name : String) : Option DF :=
  (s.find? fun p => p.1 == name).map (·.2)

/-- `df.to_sql(table_name, conn, if_exists='replace')` : drop any table of
that name, then create it with the frame's contents. -/
def insertReplace (s : List (String × DF)) (name : String) (df : DF) :
    List (String × DF) :=
  (s.filter fun p => ¬ p.1 == name) ++ [(name, df)]

/-- `set.add` on the bookkeeping list. -/
def addName (l : List String) (n : String) : List String :=
  if n ∈ l then l else l ++ [n]

/-! ## File loading (`import_file` lines 105–155) -/

/-- A text file, seen through the decoders: `decode enc` is `some df` when
`pd.read_csv(file, encoding=enc)` succeeds and produces `df`, and `none` when
it raises a `UnicodeDecodeError`. -/
structure TextFile where
  decode : String → Option DF

/-- An input file as the loaders see it: whether it exists, its stem and
suffix, the chardet verdict (`detect_file_encoding`, which already defaults to
`"utf-8"` internally), its text-decoding behaviour, and the oracles for the
binary pandas readers. -/
structure FileDesc where
  present : Bool
  stem : String
  ext : String
  detected : String
  text : TextFile
  excelData : Option String → Except String DF
  jsonData : Except String DF
  parquetData : Except String DF

/-- The fixed fallback list of line 126. -/
def fallbackEncodings : List String := ["utf-8", "gbk", "gb2312", "latin-1"]

/-- The `for enc in [...]: try ... break / except: continue` loop: first
encoding in the list that decodes, if any. -/
def firstDecode (tf : TextFile) : List String → Option DF
  | [] => none
  | e :: es =>
    match tf.decode e with
    | some df => some df
    | none => firstDecode tf es

/-- Lines 121–133, the `.csv` branch: chosen encoding = explicit override if
truthy else the chardet verdict; on decode failure walk the fallback list; if
the loop's `else` is reached raise `ValueError("无法确定文件编码")`. -/
def importCsv (tf : TextFile) (encoding : Option String) (detected : String) :
    Except String DF :=
  let enc := pyOrStr encoding detected
  match tf.decode enc with
  | some df => .ok df
  | none =>
    match firstDecode tf fallbackEncodings with
    | some df => .ok df
    | none => .error "无法确定文件编码"

/-- Lines 147–149, the `.tsv` branch: one attempt with the chosen encoding and
no fallback — a decode failure raises out to the catch-all handler. -/
def importTsv (tf : TextFile) (encoding : Option String) (detected : String) :
    Except String DF :=
  let enc := pyOrStr encoding detected
  match tf.decode enc with
  | some df => .ok df
  | none => .error "UnicodeDecodeError"

/-- The loading behaviour claim C4 asserts for every delimited text file
(`.csv` and `.tsv` alike): try the chosen encoding, then the fixed ordered
fallback list, and only fail when every fallback fails. Stated from the
claim's words, to be compared with `importCsv`/`importTsv`. -/
def claimedDelimitedLoad (tf : TextFile) (encoding : Option String)
    (detected : String) : Except String DF :=
  let enc := pyOrStr encoding detected
  match tf.decode enc with
  | some df => .ok df
  | none =>
    match firstDecode tf fallbackEncodings with
    | some df => .ok df
    | none => .error "无法确定文件编码"

/-- Lines 119–155: dispatch on the lower-cased suffix. -/
def loadByExt (f : FileDesc) (sheet : Option String) (encoding : Option String) :
    Except String DF :=
  let ext := pyLower f.ext
  if ext = ".csv" then importCsv f.text encoding f.detected
  else if ext = ".xlsx" ∨ ext = ".xls" then f.excelData sheet
  else if ext = ".json" then f.jsonData
  else if ext = ".parquet" then f.parquetData
  else if ext = ".tsv" then importTsv f.text encoding f.detected
  else .error ("不支持的文件格式: " ++ ext)

/-- Lines 115–116: `if not table_name:` (None and `""` are both falsy) use the
normalized stem. -/
def resolveTableName (f : FileDesc) (tableName : Option String) : String :=
  match tableName with
  | none => normalizeName f.stem
  | some t => if t = "" then normalizeName f.stem else t

/-- `import_file`'s per-frame statistics payload (lines 167–172). -/
structure ImportStats where
  rows : Nat
  columns : Nat
  column_names : List String
  column_types : List (String × String)
deriving DecidableEq, Repr

/-- Lines 167–172. -/
def mkStats (df : DF) : ImportStats :=
  { rows := df.nrows, columns := df.cols.length,
    column_names := df.colNames,
    column_types := df.cols.map fun c => (c.name, dtypeStr c) }

/-- The structured result of `import_file`. -/
structure ImportResult where
  status : String
  message : String := ""
  database : String := ""
  table : String := ""
  statistics : Option ImportStats := none
deriving DecidableEq, Repr

/-- Lines 161–164: the two side effects of a successful import on the store's
entry — `df.to_sql(..., if_exists='replace')` and the bookkeeping `add`. -/
def importUpdate (e : DBEntry) (tname : String) (df : DF) : DBEntry :=
  { e with store := insertReplace e.store tname df,
           tables := addName e.tables tname }

/-- Lines 92–186, `import_file`: existence check, table-name resolution,
extension dispatch, `get_or_create_db`, replace-insert into sqlite, bookkeeping
add, statistics. Every failure (including a loader exception) is caught and
returned as a structured error, leaving the registry untouched. -/
def import_file (supply : Nat → List Char) (f : FileDesc)
    (tableName : Option String) (db_name : String) (sheet : Option String)
    (encoding : Option String) (r : Registry) : ImportResult × Registry :=
  if ¬ f.present then
    ({ status := "error", message := "文件不存在" }, r)
  else
    match loadByExt f sheet encoding with
    | .error m =>
      ({ status := "error", message := "导入文件时出错: " ++ m }, r)
    | .ok df =>
      let (e, r1) := get_or_create_db supply r db_name
      ({ status := "success", message := "成功导入文件",
         database := db_name, table := resolveTableName f tableName,
         statistics := some (mkStats df) },
       updateEntry r1 db_name (importUpdate e (resolveTableName f tableName) df))

/-! ## `list_tables` (lines 188–215) -/

/-- The structured result of `list_tables`. -/
structure ListResult where
  status : String
  message : String := ""
  database : String := ""
  tables : List String := []
deriving DecidableEq, Repr

/-- Lines 188–215: read the table list from `sqlite_master`, the backing
catalog — not from the bookkeeping set. -/
def list_tables (r : Registry) (db_name : String) : ListResult :=
  match lookupEntry r db_name with
  | none => { status := "error", message := "数据库 " ++ db_name ++ " 不存在" }
  | some e =>
    { status := "success", database := db_name, tables := e.store.map (·.1) }

/-! ## `describe_table` (lines 217–274) -/

/-- The per-numeric-column `MIN/MAX/AVG` payload (lines 252–258). -/
structure NumStat where
  min : Option ℚ
  max : Option ℚ
  avg : Option ℚ
deriving DecidableEq, Repr

/-- The structured result of `describe_table`. -/
structure DescResult where
  status : String
  message : String := ""
  database : String := ""
  table : String := ""
  row_count : Nat := 0
  columns : List (String × String) := []
  sample_data : List (List (String × Option ℚ)) := []
  numeric_statistics : List (String × NumStat) := []
deriving DecidableEq, Repr

/-- Lines 217–274: `PRAGMA table_info` (empty ⇒ table-missing error),
`COUNT(*)`, a 5-row sample, and `MIN/MAX/AVG` for each numeric column of the
sample, with the truthiness-guarded rounding of line 257. -/
def descBody (table_name db_name : String) (df : DF) : DescResult :=
  if df.cols = [] then
    { status := "error", message := "表 " ++ table_name ++ " 不存在" }
  else
    { status := "success", database := db_name, table := table_name,
      row_count := df.nrows,
      columns := df.cols.map fun c => (c.name, dtypeStr c),
      sample_data := df.records.take 5,
      numeric_statistics :=
        (df.cols.filter (·.numeric)).map fun c =>
          (c.name,
           { min := sqlMin c.cells, max := sqlMax c.cells,
             avg := reportedAvg (sqlAvg c.cells) }) }

def describe_table (r : Registry) (table_name db_name : String) : DescResult :=
  match lookupEntry r db_name with
  | none => { status := "error", message := "数据库 " ++ db_name ++ " 不存在" }
  | some e =>
    match lookupTable e.store table_name with
    | none => { status := "error", message := "表 " ++ table_name ++ " 不存在" }
    | some df => descBody table_name db_name df

/-! ## `execute_sql` (lines 276–322) -/

/-- Line 297's check on the already-stripped text:
`query.upper().startswith(('SELECT', 'WITH'))`. -/
def gateRaw (q : String) : Bool :=
  listStartsWith "SELECT".toList (pyUpperL q.toList) ||
  listStartsWith "WITH".toList (pyUpperL q.toList)

/-- The safety gate as seen from the caller: the trimmed query text must begin,
case-insensitively, with `SELECT` or `WITH`. -/
def gatePasses (query : String) : Bool := gateRaw (pyStrip query)

/-- Line 304: `'LIMIT' in query.upper()`. -/
def containsLimitUpper (q : String) : Bool :=
  containsSub "LIMIT".toList (pyUpperL q.toList)

/-- Lines 303–305 applied to the (already stripped) query: append
` LIMIT {limit}` unless the text already contains `LIMIT`. -/
def limitAdjusted (q : String) (limit : Nat) : String :=
  if containsLimitUpper q then q else q ++ " LIMIT " ++ toString limit

/-- The query text `execute_sql` hands to the engine for a gated query. -/
def executedQuery (query : String) (limit : Nat) : String :=
  limitAdjusted (pyStrip query) limit

/-- The text claim C2 says is executed: the *original* query with
` LIMIT {limit}` appended when it lacks a `LIMIT`, unchanged otherwise.
Stated from the claim's words, to be compared with `executedQuery`. -/
def claimedExecutedQuery (query : String) (limit : Nat) : String :=
  if containsLimitUpper query then query
  else query ++ " LIMIT " ++ toString limit

/-- An external SQL engine: given the query text and the store's tables,
either a result frame or a raised error (`pd.read_sql_query`). -/
def SqlEngine : Type := String → List (String × DF) → Except String DF

/-- The structured result of `execute_sql` (the payload's `"query"` key echoes
the text actually executed). -/
structure SqlResult where
  status : String
  message : String := ""
  database : String := ""
  query : String := ""
  row_count : Nat := 0
  columns : List String := []
  data : List (List (String × Option ℚ)) := []
deriving DecidableEq, Repr

/-- Lines 307–316 (plus the catch-all): run the final text on the engine and
wrap the outcome. -/
def runAndWrap (runSQL : SqlEngine) (store : List (String × DF))
    (db_name q2 : String) : SqlResult :=
  match runSQL q2 store with
  | .error m => { status := "error", message := "执行SQL时出错: " ++ m }
  | .ok df =>
    { status := "success", database := db_name, query := q2,
      row_count := df.nrows, columns := df.colNames, data := df.records }

/-- Lines 276–322, `execute_sql`: unknown store → error; strip; prefix gate;
auto-`LIMIT`; execute. -/
def execute_sql (runSQL : SqlEngine) (r : Registry) (query db_name : String)
    (limit : Nat) : SqlResult :=
  match lookupEntry r db_name with
  | none => { status := "error", message := "数据库 " ++ db_name ++ " 不存在" }
  | some e =>
    if gateRaw (pyStrip query) then
      runAndWrap runSQL e.store db_name (limitAdjusted (pyStrip query) limit)
    else
      { status := "error", message := "只支持SELECT和WITH查询语句" }

/-! ## `generate_analysis_report` (lines 324–412) -/

/-- One `high_correlations` entry (lines 394–398). -/
structure CorrEntry where
  column1 : String
  column2 : String
  correlation : ℚ
deriving DecidableEq, Repr

/-- Lines 389–398: the double loop `for i in range(n): for j in range(i+1, n)`
collecting every pair with `abs(corr) > 0.7`, rounded to 3 decimals. `corr` is
the Pearson-correlation oracle (`numeric_df.corr()`), indexed over the numeric
columns `cols`. -/
def highCorrPairs (cols : List String) (corr : Nat → Nat → ℚ) :
    List CorrEntry :=
  (List.range cols.length).flatMap fun i =>
    (List.range' (i + 1) (cols.length - (i + 1))).filterMap fun j =>
      if mkRat 7 10 < ratAbs (corr i j) then
        some { column1 := cols.getD i "", column2 := cols.getD j "",
               correlation := pyRound3 (corr i j) }
      else none

/-- Lines 383–400: the `high_correlations` section — only present when there
are at least two numeric columns and the pair list is nonempty. -/
def corrSection (df : DF) (corr : Nat → Nat → ℚ) : Option (List CorrEntry) :=
  if 1 < df.numericNames.length then
    if highCorrPairs df.numericNames corr = [] then none
    else some (highCorrPairs df.numericNames corr)
  else none

/-- Lines 360–363: per-column null counts; the section exists only when some
null exists, and keeps only the columns with a positive count. -/
def missingValuesSection (df : DF) : Option (List (String × Nat)) :=
  if 0 < ((df.cols.map fun c => (c.name, missingCount c)).map (·.2)).sum then
    some ((df.cols.map fun c => (c.name, missingCount c)).filter fun p => 0 < p.2)
  else none

/-- The nested report mapping (each optional section is `none` when its key is
absent from the dict). The `memory_usage` display string of line 350 is
informational float formatting and is not modelled. -/
structure Report where
  table : String
  analysis_type : String
  rows : Nat
  columns : Nat
  numeric_summary : Option (List String) := none
  missing_values : Option (List (String × Nat)) := none
  data_types : Option (List (String × Nat)) := none
  duplicate_rows : Option Nat := none
  unique_value_counts : Option (List (String × Nat)) := none
  high_correlations : Option (List CorrEntry) := none
deriving DecidableEq, Repr

/-- The structured result of `generate_analysis_report`. -/
structure ReportResult where
  status : String
  message : String := ""
  database : String := ""
  report : Option Report := none
deriving DecidableEq, Repr

/-- Lines 324–412, `generate_analysis_report`, with `corrOf` the Pearson
oracle. `numeric_summary` is recorded as the list of columns that
`df.describe()` covers (its per-column float statistics are external pandas
output). -/
def reportBody (corrOf : DF → Nat → Nat → ℚ)
    (table_name db_name analysis_type : String) (df : DF) : ReportResult :=
      let r0 : Report :=
        { table := table_name, analysis_type := analysis_type,
          rows := df.nrows, columns := df.cols.length }
      let r1 :=
        if analysis_type = "basic" ∨ analysis_type = "statistical" ∨
            analysis_type = "correlation" then
          { r0 with
            numeric_summary :=
              if 0 < df.numericNames.length then some df.numericNames else none,
            missing_values := missingValuesSection df,
            data_types := some (dtypeCounts df) }
        else r0
      let r2 :=
        if analysis_type = "statistical" ∨ analysis_type = "correlation" then
          { r1 with
            duplicate_rows :=
              if 0 < df.dupRowCount then some df.dupRowCount else none,
            unique_value_counts :=
              if df.uniqueCounts = [] then none else some df.uniqueCounts }
        else r1
      let r3 :=
        if analysis_type = "correlation" then
          { r2 with high_correlations := corrSection df (corrOf df) }
        else r2
      { status := "success", database := db_name, report := some r3 }

def generate_analysis_report (corrOf : DF → Nat → Nat → ℚ) (r : Registry)
    (table_name db_name analysis_type : String) : ReportResult :=
  match lookupEntry r db_name with
  | none => { status := "error", message := "数据库 " ++ db_name ++ " 不存在" }
  | some e =>
    match lookupTable e.store table_name with
    | none => { status := "error", message := "生成分析报告时出错: no such table" }
    | some df => reportBody corrOf table_name db_name analysis_type df

/-! ## `export_query_result` (lines 414–462) -/

/-- The structured result of `export_query_result`. -/
structure ExportResult where
  status : String
  message : String := ""
  output_path : String := ""
  format : String := ""
  row_count : Nat := 0
deriving DecidableEq, Repr

/-- Lines 414–462: unknown store → error; run the raw query (no safety gate);
dispatch on the lower-cased format, writing the file (the write itself is an
external side effect); unknown format → error. -/
def export_query_result (runSQL : SqlEngine) (r : Registry)
    (query output_path db_name fmt : String) : ExportResult :=
  match lookupEntry r db_name with
  | none => { status := "error", message := "数据库 " ++ db_name ++ " 不存在" }
  | some e =>
    match runSQL query e.store with
    | .error m => { status := "error", message := "导出数据时出错: " ++ m }
    | .ok df =>
      if pyLower fmt = "csv" ∨ pyLower fmt = "excel" ∨ pyLower fmt = "json" then
        { status := "success", message := "成功导出",
          output_path := output_path, format := fmt, row_count := df.nrows }
      else
        { status := "error", message := "不支持的输出格式: " ++ fmt }

/-! ## `clean_database` (lines 464–500) -/

/-- The structured result of `clean_database`. -/
structure CleanResult where
  status : String
  message : String := ""
  deleted_tables : List String := []
deriving DecidableEq, Repr

/-- Lines 483–485: `for table in tables: DROP TABLE IF EXISTS table`. -/
def dropTables (s : List (String × DF)) (tabs : List String) :
    List (String × DF) :=
  tabs.foldl (fun acc t => acc.filter fun p => ¬ p.1 == t) s

/-- Lines 464–500, `clean_database`: enumerate the tables from
`sqlite_master` (the backing catalog, not the bookkeeping set), drop each,
commit, clear the bookkeeping set, and report the dropped names. -/
def clean_database (r : Registry) (db_name : String) : CleanResult × Registry :=
  match lookupEntry r db_name with
  | none =>
    ({ status := "error", message := "数据库 " ++ db_name ++ " 不存在" }, r)
  | some e =>
    let tabs := e.store.map (·.1)
    let e' := { e with store := dropTables e.store tabs, tables := [] }
    ({ status := "success", message := "成功清理数据库 " ++ db_name,
       deleted_tables := tabs }, updateEntry r db_name e')

/-! ## Concrete fixtures (used by witnesses and counterexamples) -/

/-- A numeric column whose SQL average is exactly 0. -/
def colZero : Column := ⟨"z", true, [some 1, some (-1)]⟩

/-- A numeric column with nulls and a nonzero average. -/
def colA : Column := ⟨"a", true, [some 1, none, some 4]⟩

/-- A non-numeric column without nulls. -/
def colB : Column := ⟨"b", false, [some 0, some 2, some 3]⟩

/-- A small frame. -/
def df0 : DF := ⟨[colA, colB]⟩

/-- A frame with a zero-average and a nonzero-average numeric column. -/
def dfZero : DF := ⟨[colZero, ⟨"w", true, [some 2, some 2]⟩]⟩

/-- A frame with two numeric columns (for the correlation witness). -/
def dfXY : DF := ⟨[⟨"x", true, [some 1, some 2]⟩, ⟨"y", true, [some 2, some 1]⟩]⟩

/-- A store entry whose bookkeeping set disagrees with the backing catalog. -/
def entry0 : DBEntry :=
  { connId := 0, path := "p".toList,
    store := [("t", df0), ("tz", dfZero), ("txy", dfXY)],
    tables := ["ghost"] }

/-- A registry knowing only the store `"default"`. -/
def reg0 : Registry := { conns := [("default", entry0)], uuidSeq := 1 }

/-- An engine that always succeeds with an empty frame. -/
def emptyEngine : SqlEngine := fun _ _ => .ok ⟨[]⟩

/-- An engine that records the query text it was handed as a column name. -/
def echoEngine : SqlEngine := fun q _ => .ok ⟨[⟨q, false, []⟩]⟩

/-- An engine that always raises. -/
def failEngine : SqlEngine := fun _ _ => .error "boom"

/-- A Pearson oracle putting every pair at correlation 0.71. -/
def corrHigh : DF → Nat → Nat → ℚ := fun _ _ _ => mkRat 71 100

/-- A text file that only utf-8 decodes (to `df0`). -/
def tfUtf8 : TextFile := ⟨fun e => if e = "utf-8" then some df0 else none⟩

/-- A `.tsv` file whose chardet verdict fails to decode, while utf-8 would
work. -/
def tsvFile0 : FileDesc :=
  { present := true, stem := "demo", ext := ".tsv", detected := "windows-1252",
    text := tfUtf8, excelData := fun _ => .error "x", jsonData := .error "x",
    parquetData := .error "x" }

/-- The same file with a `.csv` suffix. -/
def csvFile0 : FileDesc := { tsvFile0 with ext := ".csv" }

/-- A concrete uuid oracle with 8-character outputs. -/
def supply0 : Nat → List Char := fun i =>
  if i = 0 then "aaaaaaaa".toList else "bbbbbbbb".toList

/-- A registry holding one store created at uuid index 0. -/
def regW : Registry :=
  { conns := [("other",
      { connId := 0, path := mkDbPath supply0 "other" 0, store := [],
        tables := [] })],
    uuidSeq := 1 }

/-! ## Helper lemmas -/

theorem natSum_eq_zero {l : List ℕ} : l.sum = 0 ↔ ∀ x ∈ l, x = 0 := by
  induction l with
  | nil => simp
  | cons a t ih => simp [ih, Nat.add_eq_zero]

theorem filterMap_ite (l : List β) (p : β → Prop) [DecidablePred p]
    (f : β → γ) :
    (l.filterMap fun b => if p b then some (f b) else none)
      = (l.filter fun b => decide (p b)).map f := by
  induction l with
  | nil => rfl
  | cons b t ih =>
    by_cases h : p b <;>
      simp [List.filterMap_cons, List.filter_cons, h, ih]

/-- The set of index pairs the nested loop of lines 390–391 walks, in loop
order: all `(i, j)` with `i < j < n`. -/
def orderedPairs (n : Nat) : List (Nat × Nat) :=
  (List.range n).flatMap fun i =>
    (List.range' (i + 1) (n - (i + 1))).map fun j => (i, j)

theorem mem_orderedPairs {n : Nat} {q : Nat × Nat} :
    q ∈ orderedPairs n ↔ q.1 < q.2 ∧ q.2 < n := by
  rcases q with ⟨a, b⟩
  simp only [orderedPairs, List.mem_flatMap, List.mem_map, List.mem_range,
    List.mem_range', Prod.mk.injEq]
  constructor
  · rintro ⟨i, hi, j, ⟨k, hk, rfl⟩, h1, h2⟩
    omega
  · rintro ⟨hab, hbn⟩
    exact ⟨a, by omega, b, ⟨b - (a + 1), by omega, by omega⟩, rfl, rfl⟩

theorem nodup_orderedPairs (n : Nat) : (orderedPairs n).Nodup := by
  apply List.nodup_flatMap.2
  constructor
  · intro i _
    exact (List.nodup_range' _ _).map (fun a b h => congrArg Prod.snd h)
  · have h : (List.range n).Pairwise (· ≠ ·) := List.nodup_range n
    apply h.imp
    intro a b hab
    intro x hxa hxb
    simp only [List.mem_map] at hxa hxb
    obtain ⟨j₁, _, rfl⟩ := hxa
    obtain ⟨j₂, _, h2⟩ := hxb
    exact hab (congrArg Prod.fst h2).symm

theorem highCorrPairs_eq (cols : List String) (corr : Nat → Nat → ℚ) :
    highCorrPairs cols corr
      = ((orderedPairs cols.length).filter fun q =>
            decide (mkRat 7 10 < ratAbs (corr q.1 q.2))).map fun q =>
          ({ column1 := cols.getD q.1 "", column2 := cols.getD q.2 "",
             correlation := pyRound3 (corr q.1 q.2) } : CorrEntry) := by
  have hi : ∀ i : Nat,
      ((((List.range' (i + 1) (cols.length - (i + 1))).map fun j => (i, j)).filter
          fun q => decide (mkRat 7 10 < ratAbs (corr q.1 q.2))).map fun q =>
            ({ column1 := cols.getD q.1 "", column2 := cols.getD q.2 "",
               correlation := pyRound3 (corr q.1 q.2) } : CorrEntry))
        = (List.range' (i + 1) (cols.length - (i + 1))).filterMap fun j =>
            if mkRat 7 10 < ratAbs (corr i j) then
              some ({ column1 := cols.getD i "", column2 := cols.getD j "",
                      correlation := pyRound3 (corr i j) } : CorrEntry)
            else none := by
    intro i
    rw [List.filter_map, List.map_map,
      filterMap_ite _ (fun j => mkRat 7 10 < ratAbs (corr i j))
        (fun j => ({ column1 := cols.getD i "", column2 := cols.getD j "",
                     correlation := pyRound3 (corr i j) } : CorrEntry))]
    rfl
  unfold highCorrPairs orderedPairs
  rw [List.filter_flatMap, List.map_flatMap]
  simp only [hi]

theorem find?_map_update (l : List (String × DBEntry)) (db : String)
    (e : DBEntry) :
    ((l.map fun p => if p.1 == db then (p.1, e) else p).find? fun p =>
        p.1 == db)
      = (l.find? fun p => p.1 == db).map fun p => (p.1, e) := by
  rw [List.find?_map]
  have hcomp : ((fun p : String × DBEntry => p.1 == db) ∘
        fun p : String × DBEntry => if p.1 == db then (p.1, e) else p)
      = fun p : String × DBEntry => p.1 == db := by
    funext q
    by_cases hq : q.1 = db <;> simp [Function.comp, hq]
  rw [hcomp]
  cases hf : l.find? fun p => p.1 == db with
  | none => rfl
  | some q =>
    have hq : q.1 = db := by simpa using List.find?_some hf
    simp [hq]

theorem lookupEntry_update (r : Registry) (db : String) (e : DBEntry) :
    lookupEntry (updateEntry r db e) db
      = (lookupEntry r db).map fun _ => e := by
  unfold lookupEntry updateEntry
  rw [find?_map_update]
  cases r.conns.find? fun p => p.1 == db <;> rfl

theorem updateEntry_updateEntry (r : Registry) (db : String) (e : DBEntry) :
    updateEntry (updateEntry r db e) db e = updateEntry r db e := by
  unfold updateEntry
  have hg : ((fun p => if p.1 == db then (p.1, e) else p) ∘
        fun p : String × DBEntry => if p.1 == db then (p.1, e) else p)
      = fun p : String × DBEntry => if p.1 == db then (p.1, e) else p := by
    funext p
    by_cases h : p.1 == db <;> simp [Function.comp, h]
  rw [List.map_map, hg]

theorem lookupEntry_gocdb (supply : Nat → List Char) (r : Registry)
    (name : String) :
    lookupEntry (get_or_create_db supply r name).2 name
      = some (get_or_create_db supply r name).1 := by
  unfold get_or_create_db
  cases h : lookupEntry r name with
  | some e => exact h
  | none =>
    unfold lookupEntry at h ⊢
    cases hf : r.conns.find? fun p => p.1 == name with
    | some p => rw [hf] at h; simp at h
    | none =>
      simp only [List.find?_append, hf]
      rw [List.find?_cons_of_pos _ (by simp)]
      rfl

theorem lookupTable_insertReplace (s : List (String × DF)) (n : String)
    (df : DF) : lookupTable (insertReplace s n df) n = some df := by
  unfold lookupTable insertReplace
  rw [List.find?_append]
  have h : (s.filter fun p => ¬ p.1 == n).find? (fun p => p.1 == n) = none := by
    rw [List.find?_eq_none]
    intro x hx
    simp only [List.mem_filter] at hx
    simpa using hx.2
  rw [h]
  rw [List.find?_cons_of_pos _ (by simp)]
  rfl

theorem countP_insertReplace (s : List (String × DF)) (n : String) (df : DF) :
    (insertReplace s n df).countP (fun q => q.1 == n) = 1 := by
  unfold insertReplace
  rw [List.countP_append]
  have h : (s.filter fun p => ¬ p.1 == n).countP (fun q => q.1 == n) = 0 := by
    rw [List.countP_eq_zero]
    intro x hx
    simp only [List.mem_filter] at hx
    simpa using hx.2
  simp [h, List.countP_cons]

theorem insertReplace_insertReplace (s : List (String × DF)) (n : String)
    (df : DF) : insertReplace (insertReplace s n df) n df
      = insertReplace s n df := by
  unfold insertReplace
  rw [List.filter_append, List.filter_filter]
  simp

theorem addName_addName (l : List String) (t : String) :
    addName (addName l t) t = addName l t := by
  unfold addName
  by_cases h : t ∈ l <;> simp [h]

theorem mem_dropTables {x : String × DF} :
    ∀ (tabs : List String) (s : List (String × DF)),
      x ∈ dropTables s tabs → x ∈ s ∧ ∀ t ∈ tabs, ¬ x.1 == t := by
  intro tabs
  induction tabs with
  | nil => intro s h; exact ⟨h, by simp⟩
  | cons t ts ih =>
    intro s h
    have h' := ih (s.filter fun p => ¬ p.1 == t) h
    obtain ⟨hmem, hrest⟩ := h'
    simp only [List.mem_filter] at hmem
    refine ⟨hmem.1, ?_⟩
    intro u hu
    rcases List.mem_cons.1 hu with rfl | hu'
    · simpa using hmem.2
    · exact hrest u hu'

theorem describe_table_known (r : Registry) (table_name db_name : String)
    (e : DBEntry) (df : DF) (he : lookupEntry r db_name = some e)
    (ht : lookupTable e.store table_name = some df) :
    describe_table r table_name db_name = descBody table_name db_name df := by
  simp only [describe_table, he, ht]

theorem generate_report_known (corrOf : DF → Nat → Nat → ℚ) (r : Registry)
    (table_name db_name analysis_type : String) (e : DBEntry) (df : DF)
    (he : lookupEntry r db_name = some e)
    (ht : lookupTable e.store table_name = some df) :
    generate_analysis_report corrOf r table_name db_name analysis_type
      = reportBody corrOf table_name db_name analysis_type df := by
  simp only [generate_analysis_report, he, ht]

theorem dropTables_catalog (s : List (String × DF)) :
    dropTables s (s.map (·.1)) = [] := by
  rw [List.eq_nil_iff_forall_not_mem]
  intro x hx
  obtain ⟨hmem, hall⟩ := mem_dropTables (s.map (·.1)) s hx
  exact hall x.1 (List.mem_map_of_mem _ hmem) (by simp)

theorem missingValuesSection_none (df : DF) :
    missingValuesSection df = none ↔ ∀ c ∈ df.cols, missingCount c = 0 := by
  unfold missingValuesSection
  rw [List.map_map]
  by_cases h : 0 < (df.cols.map ((·.2) ∘ fun c => (c.name, missingCount c))).sum
  · rw [if_pos h]
    constructor
    · intro hx
      cases hx
    · intro hall
      exfalso
      have hz : (df.cols.map ((·.2) ∘ fun c => (c.name, missingCount c))).sum
          = 0 := by
        rw [natSum_eq_zero]
        intro x hx
        simp only [List.mem_map, Function.comp] at hx
        obtain ⟨c, hc, rfl⟩ := hx
        exact hall c hc
      omega
  · rw [if_neg h]
    have hz : (df.cols.map ((·.2) ∘ fun c => (c.name, missingCount c))).sum
        = 0 := by omega
    rw [natSum_eq_zero] at hz
    constructor
    · intro _ c hc
      exact hz _ (List.mem_map_of_mem _ hc)
    · intro _
      rfl

theorem missingValuesSection_mem (df : DF) (l : List (String × Nat))
    (h : missingValuesSection df = some l) (nm : String) (k : Nat) :
    (nm, k) ∈ l ↔ ∃ c ∈ df.cols, c.name = nm ∧ missingCount c = k ∧ 0 < k := by
  unfold missingValuesSection at h
  split at h
  · injection h with h
    subst h
    simp only [List.mem_filter, List.mem_map, decide_eq_true_eq]
    constructor
    · rintro ⟨⟨c, hc, heq⟩, hk⟩
      rw [Prod.mk.injEq] at heq
      exact ⟨c, hc, heq.1, heq.2, heq.2 ▸ hk⟩
    · rintro ⟨c, hc, h1, h2, hk⟩
      exact ⟨⟨c, hc, by rw [Prod.mk.injEq]; exact ⟨h1, h2⟩⟩, by simpa [h2] using hk⟩
  · cases h

theorem corrSection_small (df : DF) (corr : Nat → Nat → ℚ)
    (h : df.numericNames.length < 2) : corrSection df corr = none := by
  unfold corrSection
  rw [if_neg (by omega)]

theorem corrSection_big (df : DF) (corr : Nat → Nat → ℚ)
    (h : 2 ≤ df.numericNames.length) :
    (corrSection df corr = none ↔ highCorrPairs df.numericNames corr = []) ∧
    (corrSection df corr).getD [] = highCorrPairs df.numericNames corr := by
  unfold corrSection
  rw [if_pos (by omega)]
  by_cases hc : highCorrPairs df.numericNames corr = [] <;> simp [hc]

theorem gocdb_known (supply : Nat → List Char) (r : Registry) (name : String)
    (e : DBEntry) (h : lookupEntry r name = some e) :
    get_or_create_db supply r name = (e, r) := by
  unfold get_or_create_db
  rw [h]

theorem mkDbPath_inj_supply (supply : Nat → List Char) (n1 n2 : String)
    (i j : Nat) (h8i : (supply i).length = 8) (h8j : (supply j).length = 8)
    (h : mkDbPath supply n1 i = mkDbPath supply n2 j) : supply i = supply j := by
  unfold mkDbPath at h
  have h1 := (List.append_inj' h rfl).1
  exact (List.append_inj' h1 (by rw [h8i, h8j])).2

theorem importUpdate_idem (e : DBEntry) (tname : String) (df : DF) :
    importUpdate (importUpdate e tname df) tname df
      = importUpdate e tname df := by
  unfold importUpdate
  simp only []
  rw [insertReplace_insertReplace, addName_addName]

theorem import_file_success (supply : Nat → List Char) (f : FileDesc)
    (tableName : Option String) (db_name : String) (sheet enc : Option String)
    (r : Registry) (df : DF) (hp : f.present = true)
    (hload : loadByExt f sheet enc = .ok df) :
    import_file supply f tableName db_name sheet enc r
      = ({ status := "success", message := "成功导入文件",
           database := db_name, table := resolveTableName f tableName,
           statistics := some (mkStats df) },
         updateEntry (get_or_create_db supply r db_name).2 db_name
           (importUpdate (get_or_create_db supply r db_name).1
             (resolveTableName f tableName) df)) := by
  simp only [import_file, hp, hload, Bool.not_true]
  rfl

/-! ## Claim theorems -/

/-- **C1.** On a known store, a query whose trimmed text does not begin,
case-insensitively, with `SELECT` or `WITH` makes `execute_sql` return a
structured error and the backing engine is never consulted (the result is the
same for every engine); a query whose trimmed text does begin with `SELECT` or
`WITH` passes the gate and is executed: the result is exactly the wrapped
engine run on the limit-adjusted text. -/
theorem execute_sql_gate_spec (runSQL runSQL' : SqlEngine) (r : Registry)
    (query db_name : String) (limit : Nat) (e : DBEntry)
    (he : lookupEntry r db_name = some e) :
    (gatePasses query = false →
      (execute_sql runSQL r query db_name limit).status = "error" ∧
      execute_sql runSQL r query db_name limit
        = execute_sql runSQL' r query db_name limit) ∧
    (gatePasses query = true →
      execute_sql runSQL r query db_name limit
        = runAndWrap runSQL e.store db_name (executedQuery query limit)) := by
  have hred : ∀ f : SqlEngine, execute_sql f r query db_name limit
      = (if gateRaw (pyStrip query) then
          runAndWrap f e.store db_name (limitAdjusted (pyStrip query) limit)
        else { status := "error", message := "只支持SELECT和WITH查询语句" }) := by
    intro f
    unfold execute_sql
    rw [he]
  constructor
  · intro hg
    unfold gatePasses at hg
    rw [hred runSQL, hred runSQL', if_neg (by simp [hg]), if_neg (by simp [hg])]
    exact ⟨rfl, rfl⟩
  · intro hg
    unfold gatePasses at hg
    rw [hred runSQL, if_pos hg]
    rfl

/-- Witness for C1: `DROP TABLE t` is rejected with a structured error on the
known store `"default"`, independently of the engine; a lowercase
` select 1` passes the gate and is handed to the engine. -/
theorem execute_sql_gate_spec_witness :
    (execute_sql failEngine reg0 "DROP TABLE t" "default" 100).status
        = "error" ∧
    execute_sql failEngine reg0 "DROP TABLE t" "default" 100
      = execute_sql emptyEngine reg0 "DROP TABLE t" "default" 100 ∧
    execute_sql emptyEngine reg0 " select 1" "default" 100
      = runAndWrap emptyEngine entry0.store "default"
          (executedQuery " select 1" 100) := by
  refine ⟨?_, ?_, ?_⟩
  · exact ((execute_sql_gate_spec failEngine emptyEngine reg0 "DROP TABLE t"
      "default" 100 entry0 (by decide)).1 (by decide)).1
  · exact ((execute_sql_gate_spec failEngine emptyEngine reg0 "DROP TABLE t"
      "default" 100 entry0 (by decide)).1 (by decide)).2
  · exact (execute_sql_gate_spec emptyEngine failEngine reg0 " select 1"
      "default" 100 entry0 (by decide)).2 (by decide)

/-- **C2 (counterexample).** The claim says the text actually executed is the
*original* query with ` LIMIT {limit}` appended; but `execute_sql` strips the
query first (line 296), so for `" SELECT 1"` the executed text (echoed back by
a recording engine, and in the result's `query` field) differs from the
claimed text. -/
theorem execute_sql_limit_counterexample :
    (execute_sql echoEngine reg0 " SELECT 1" "default" 100).query
        ≠ claimedExecutedQuery " SELECT 1" 100 ∧
    (execute_sql echoEngine reg0 " SELECT 1" "default" 100).columns
        = [(execute_sql echoEngine reg0 " SELECT 1" "default" 100).query] := by
  constructor
  · decide
  · decide

/-- **C2 (amended).** For every query accepted by `execute_sql` on a known
store: if the *trimmed* query text does not contain `LIMIT`
(case-insensitively), the executed text is the trimmed query with
` LIMIT {limit}` appended, and — provided the engine honours a trailing
`LIMIT n` by returning at most `n` rows — the result holds at most `limit`
rows; if the trimmed text already contains `LIMIT`, it is executed unchanged
(the caller's explicit `LIMIT` is not overridden). -/
theorem execute_sql_limit_spec (runSQL : SqlEngine) (r : Registry)
    (query db_name : String) (limit : Nat) (e : DBEntry)
    (he : lookupEntry r db_name = some e)
    (hg : gatePasses query = true)
    (hlim : ∀ q n df, runSQL (q ++ " LIMIT " ++ toString n) e.store = .ok df →
        df.nrows ≤ n) :
    (containsLimitUpper (pyStrip query) = false →
      executedQuery query limit
          = pyStrip query ++ " LIMIT " ++ toString limit ∧
      execute_sql runSQL r query db_name limit
        = runAndWrap runSQL e.store db_name
            (pyStrip query ++ " LIMIT " ++ toString limit) ∧
      (execute_sql runSQL r query db_name limit).row_count ≤ limit) ∧
    (containsLimitUpper (pyStrip query) = true →
      executedQuery query limit = pyStrip query ∧
      execute_sql runSQL r query db_name limit
        = runAndWrap runSQL e.store db_name (pyStrip query)) := by
  have hexe : executedQuery query limit
      = limitAdjusted (pyStrip query) limit := rfl
  have hred : execute_sql runSQL r query db_name limit
      = runAndWrap runSQL e.store db_name
          (limitAdjusted (pyStrip query) limit) := by
    unfold execute_sql
    rw [he]
    unfold gatePasses at hg
    simp [hg]
  constructor
  · intro hcl
    have hq : limitAdjusted (pyStrip query) limit
        = pyStrip query ++ " LIMIT " ++ toString limit := by
      unfold limitAdjusted
      rw [if_neg (by simp [hcl])]
    refine ⟨hexe.trans hq, by rw [hred, hq], ?_⟩
    rw [hred, hq]
    unfold runAndWrap
    cases hrun : runSQL (pyStrip query ++ " LIMIT " ++ toString limit) e.store
      with
    | error m => simp
    | ok df => simpa using hlim (pyStrip query) limit df hrun
  · intro hcl
    have hq : limitAdjusted (pyStrip query) limit = pyStrip query := by
      unfold limitAdjusted
      rw [if_pos hcl]
    exact ⟨hexe.trans hq, by rw [hred, hq]⟩

/-- Witness for C2 (amended): on `"SELECT 9"` with limit 5 the executed text
gains ` LIMIT 5` and at most 5 rows come back; `"SELECT 9 LIMIT 2"` is
executed unchanged. -/
theorem execute_sql_limit_spec_witness :
    executedQuery "SELECT 9" 5 = "SELECT 9 LIMIT 5" ∧
    (execute_sql emptyEngine reg0 "SELECT 9" "default" 5).row_count ≤ 5 ∧
    executedQuery "SELECT 9 LIMIT 2" 5 = "SELECT 9 LIMIT 2" := by
  have hlim : ∀ q n df,
      emptyEngine (q ++ " LIMIT " ++ toString n) entry0.store = .ok df →
        df.nrows ≤ n := by
    intro q n df hdf
    simp only [emptyEngine] at hdf
    injection hdf with h
    rw [← h]
    simp [DF.nrows]
  have h := execute_sql_limit_spec emptyEngine reg0 "SELECT 9" "default" 5
    entry0 (by decide) (by decide) hlim
  have h2 := execute_sql_limit_spec emptyEngine reg0 "SELECT 9 LIMIT 2"
    "default" 5 entry0 (by decide) (by decide) hlim
  exact ⟨(h.1 (by decide)).1.trans (by decide), (h.1 (by decide)).2.2,
    (h2.2 (by decide)).1.trans (by decide)⟩

/-- **C3.** In a correlation-tier report on a known table, the
`high_correlations` section is exactly the nested-loop output: filtered over
the unordered index pairs `i < j` of numeric columns (each pair visited
exactly once — the pair list is duplicate-free and holds precisely the pairs
`i < j < n`), keeping those with `|corr| > 0.7` rounded to 3 decimals; with
fewer than 2 numeric columns no correlation section is added, and the section
is also omitted when the pair list is empty. -/
theorem high_correlations_spec (corrOf : DF → Nat → Nat → ℚ) (r : Registry)
    (table_name db_name : String) (e : DBEntry) (df : DF)
    (he : lookupEntry r db_name = some e)
    (ht : lookupTable e.store table_name = some df) :
    ∃ rep, (generate_analysis_report corrOf r table_name db_name
        "correlation").report = some rep ∧
      rep.high_correlations = corrSection df (corrOf df) ∧
      (df.numericNames.length < 2 → corrSection df (corrOf df) = none) ∧
      (2 ≤ df.numericNames.length →
        (corrSection df (corrOf df) = none ↔
          highCorrPairs df.numericNames (corrOf df) = []) ∧
        (corrSection df (corrOf df)).getD []
          = ((orderedPairs df.numericNames.length).filter fun q =>
                decide (mkRat 7 10 < ratAbs (corrOf df q.1 q.2))).map fun q =>
              ({ column1 := df.numericNames.getD q.1 "",
                 column2 := df.numericNames.getD q.2 "",
                 correlation := pyRound3 (corrOf df q.1 q.2) } : CorrEntry)) ∧
      (∀ n (q : Nat × Nat), q ∈ orderedPairs n ↔ q.1 < q.2 ∧ q.2 < n) ∧
      (∀ n, (orderedPairs n).Nodup) := by
  rw [generate_report_known corrOf r table_name db_name "correlation" e df he ht]
  refine ⟨_, rfl, rfl, ?_, ?_, ?_, ?_⟩
  · exact corrSection_small df (corrOf df)
  · intro h2
    exact ⟨(corrSection_big df (corrOf df) h2).1,
      ((corrSection_big df (corrOf df) h2).2).trans (highCorrPairs_eq _ _)⟩
  · intro n q
    exact mem_orderedPairs
  · exact nodup_orderedPairs

/-- Witness for C3: on a table with two numeric columns all at pairwise
correlation 0.71, the section holds exactly the one pair `("x", "y")` with
value 0.71. -/
theorem high_correlations_spec_witness :
    (∃ rep, (generate_analysis_report corrHigh reg0 "txy" "default"
        "correlation").report = some rep ∧
      rep.high_correlations = corrSection dfXY (corrHigh dfXY)) ∧
    corrSection dfXY (corrHigh dfXY)
      = some [{ column1 := "x", column2 := "y", correlation := mkRat 71 100 }] := by
  obtain ⟨rep, h1, h2, -⟩ := high_correlations_spec corrHigh reg0 "txy"
    "default" entry0 dfXY (by decide) (by decide)
  exact ⟨⟨rep, h1, h2⟩, by decide⟩

/-- **C8.** In every report of an actual tier (basic, statistical or
correlation) on a known table, the `missing_values` section maps exactly the
columns having at least one null to their null counts; columns with zero
nulls never appear, and when no column has any null the section is absent
from the report. -/
theorem missing_values_spec (corrOf : DF → Nat → Nat → ℚ) (r : Registry)
    (table_name db_name analysis_type : String) (e : DBEntry) (df : DF)
    (he : lookupEntry r db_name = some e)
    (ht : lookupTable e.store table_name = some df)
    (hty : analysis_type = "basic" ∨ analysis_type = "statistical" ∨
      analysis_type = "correlation") :
    ∃ rep, (generate_analysis_report corrOf r table_name db_name
        analysis_type).report = some rep ∧
      rep.missing_values = missingValuesSection df ∧
      (rep.missing_values = none ↔ ∀ c ∈ df.cols, missingCount c = 0) ∧
      (∀ l, rep.missing_values = some l → ∀ nm k,
        ((nm, k) ∈ l ↔
          ∃ c ∈ df.cols, c.name = nm ∧ missingCount c = k ∧ 0 < k)) := by
  rw [generate_report_known corrOf r table_name db_name analysis_type e df he ht]
  have key : ∀ rep : Report, rep.missing_values = missingValuesSection df →
      (rep.missing_values = none ↔ ∀ c ∈ df.cols, missingCount c = 0) ∧
      (∀ l, rep.missing_values = some l → ∀ nm k,
        ((nm, k) ∈ l ↔
          ∃ c ∈ df.cols, c.name = nm ∧ missingCount c = k ∧ 0 < k)) := by
    intro rep hmv
    rw [hmv]
    exact ⟨missingValuesSection_none df,
      fun l hl nm k => missingValuesSection_mem df l hl nm k⟩
  rcases hty with rfl | rfl | rfl
  · exact ⟨_, rfl, rfl, key _ rfl⟩
  · exact ⟨_, rfl, rfl, key _ rfl⟩
  · exact ⟨_, rfl, rfl, key _ rfl⟩

/-- Witness for C8: on `df0` (column `"a"` has 1 null, column `"b"` none) the
basic-tier report's section is exactly `[("a", 1)]`. -/
theorem missing_values_spec_witness :
    (∃ rep, (generate_analysis_report corrHigh reg0 "t" "default"
        "basic").report = some rep ∧
      rep.missing_values = missingValuesSection df0) ∧
    missingValuesSection df0 = some [("a", 1)] := by
  obtain ⟨rep, h1, h2, -⟩ := missing_values_spec corrHigh reg0 "t" "default"
    "basic" entry0 df0 (by decide) (by decide) (Or.inl rfl)
  exact ⟨⟨rep, h1, h2⟩, by decide⟩

/-- **C4 (counterexample).** The fallback chain exists only in the `.csv`
branch (lines 121–133); the `.tsv` branch (lines 147–149) makes a single
attempt with the chosen encoding. On a `.tsv` file whose detected encoding
fails to decode while utf-8 would succeed, the code errors although the
claimed behaviour (retry with the fallback list) succeeds. -/
theorem encoding_fallback_counterexample :
    loadByExt tsvFile0 none none = .error "UnicodeDecodeError" ∧
    claimedDelimitedLoad tsvFile0.text none tsvFile0.detected = .ok df0 ∧
    (import_file supply0 tsvFile0 none "default" none none reg0).1.status
      = "error" := by
  exact ⟨rfl, rfl, rfl⟩

/-- **C4 (amended).** The retry chain holds as claimed for `.csv` files: the
`.csv` loader equals the claimed try-chosen-then-fallback-then-fail loader,
and `loadByExt` routes `.csv` files to it. For `.tsv` files there is no
fallback: `loadByExt` routes them to the single-attempt loader, which returns
a structured decode error as soon as the chosen encoding (explicit override,
else the detector's verdict) fails. -/
theorem encoding_fallback_spec :
    (∀ tf enc det, importCsv tf enc det = claimedDelimitedLoad tf enc det) ∧
    (∀ (f : FileDesc) sheet enc, pyLower f.ext = ".csv" →
      loadByExt f sheet enc = importCsv f.text enc f.detected) ∧
    (∀ (f : FileDesc) sheet enc, pyLower f.ext = ".tsv" →
      loadByExt f sheet enc = importTsv f.text enc f.detected) ∧
    (∀ tf enc det, tf.decode (pyOrStr enc det) = none →
      importTsv tf enc det = .error "UnicodeDecodeError") := by
  refine ⟨fun tf enc det => rfl, ?_, ?_, ?_⟩
  · intro f sheet enc h
    simp [loadByExt, h]
  · intro f sheet enc h
    simp [loadByExt, h]
  · intro tf enc det h
    simp [importTsv, h]

/-- Witness for C4 (amended): concrete `.csv`/`.tsv` files route to their
loaders; a `.tsv` decode failure is a structured error while the same bytes
as `.csv` are recovered through the utf-8 fallback. -/
theorem encoding_fallback_spec_witness :
    loadByExt csvFile0 none none
        = importCsv csvFile0.text none csvFile0.detected ∧
    loadByExt tsvFile0 none none
        = importTsv tsvFile0.text none tsvFile0.detected ∧
    importTsv tfUtf8 none "windows-1252" = .error "UnicodeDecodeError" ∧
    importCsv tfUtf8 none "windows-1252" = .ok df0 := by
  refine ⟨encoding_fallback_spec.2.1 csvFile0 none none (by decide),
    encoding_fallback_spec.2.2.1 tsvFile0 none none (by decide),
    encoding_fallback_spec.2.2.2 tfUtf8 none "windows-1252" rfl, ?_⟩
  rw [encoding_fallback_spec.1 tfUtf8 none "windows-1252"]
  rfl

/-- **C5.** Every exposed operation, on every input, every store state and
every behaviour of the external oracles (engine, uuid supply, correlation),
returns a structured result whose `status` is `"success"` or `"error"`: the
operations are total functions into result records, mirroring the catch-all
`try/except` at each tool boundary — no exception escapes. -/
theorem ops_status_dichotomy (supply : Nat → List Char) (runSQL : SqlEngine)
    (corrOf : DF → Nat → Nat → ℚ) (r : Registry) (f : FileDesc)
    (tableName sheet enc : Option String)
    (query db_name table_name analysis_type output_path fmt : String)
    (limit : Nat) :
    ((import_file supply f tableName db_name sheet enc r).1.status = "success"
      ∨ (import_file supply f tableName db_name sheet enc r).1.status
          = "error") ∧
    ((list_tables r db_name).status = "success"
      ∨ (list_tables r db_name).status = "error") ∧
    ((describe_table r table_name db_name).status = "success"
      ∨ (describe_table r table_name db_name).status = "error") ∧
    ((execute_sql runSQL r query db_name limit).status = "success"
      ∨ (execute_sql runSQL r query db_name limit).status = "error") ∧
    ((generate_analysis_report corrOf r table_name db_name
        analysis_type).status = "success"
      ∨ (generate_analysis_report corrOf r table_name db_name
          analysis_type).status = "error") ∧
    ((export_query_result runSQL r query output_path db_name fmt).status
        = "success"
      ∨ (export_query_result runSQL r query output_path db_name fmt).status
          = "error") ∧
    ((clean_database r db_name).1.status = "success"
      ∨ (clean_database r db_name).1.status = "error") := by
  refine ⟨?_, ?_, ?_, ?_, ?_, ?_, ?_⟩
  · unfold import_file
    (repeat' split) <;> simp
  · unfold list_tables
    (repeat' split) <;> simp
  · unfold describe_table descBody
    (repeat' split) <;> simp
  · unfold execute_sql runAndWrap
    split
    · simp
    · split
      · split <;> simp
      · simp
  · unfold generate_analysis_report reportBody
    (repeat' split) <;> simp
  · unfold export_query_result
    (repeat' split) <;> simp
  · unfold clean_database
    (repeat' split) <;> simp

/-- **C6.** Importing the same file twice under the same table name into the
same store is idempotent: the second import returns the same result record
(same status and the same row/column statistics) and leaves the registry in
exactly the state the first import left it (the prior table is fully replaced,
never appended to), and afterwards exactly one table with the resolved name
exists in the backing store. -/
theorem import_replace_idempotent (supply : Nat → List Char) (f : FileDesc)
    (tableName : Option String) (db_name : String) (sheet enc : Option String)
    (r : Registry)
    (h : (import_file supply f tableName db_name sheet enc r).1.status
        = "success") :
    import_file supply f tableName db_name sheet enc
        (import_file supply f tableName db_name sheet enc r).2
      = ((import_file supply f tableName db_name sheet enc r).1,
         (import_file supply f tableName db_name sheet enc r).2) ∧
    ∃ e1 df,
      lookupEntry (import_file supply f tableName db_name sheet enc r).2
          db_name = some e1 ∧
      e1.store.countP (fun q =>
        q.1 == (import_file supply f tableName db_name sheet enc r).1.table)
        = 1 ∧
      lookupTable e1.store
          (import_file supply f tableName db_name sheet enc r).1.table
        = some df ∧
      (import_file supply f tableName db_name sheet enc r).1.statistics
        = some (mkStats df) := by
  have hp : f.present = true := by
    by_contra hp
    have hp' : f.present = false := by
      cases hf : f.present
      · rfl
      · exact absurd hf hp
    rw [show (import_file supply f tableName db_name sheet enc r)
        = ({ status := "error", message := "文件不存在" }, r) by
      unfold import_file
      rw [if_pos (by simp [hp'])]] at h
    simp at h
  obtain ⟨df, hload⟩ : ∃ df, loadByExt f sheet enc = .ok df := by
    cases hload : loadByExt f sheet enc with
    | error m =>
      exfalso
      rw [show (import_file supply f tableName db_name sheet enc r)
          = ({ status := "error", message := "导入文件时出错: " ++ m }, r) by
        unfold import_file
        rw [if_neg (by simp [hp]), hload]] at h
      simp at h
    | ok df => exact ⟨df, rfl⟩
  rcases hg : get_or_create_db supply r db_name with ⟨e, r1⟩
  have h1 := import_file_success supply f tableName db_name sheet enc r df hp
    hload
  rw [hg] at h1
  have hsnd : (import_file supply f tableName db_name sheet enc r).2
      = updateEntry r1 db_name
          (importUpdate e (resolveTableName f tableName) df) := by
    rw [h1]
  have hfst : (import_file supply f tableName db_name sheet enc r).1
      = { status := "success", message := "成功导入文件", database := db_name,
          table := resolveTableName f tableName,
          statistics := some (mkStats df) } := by
    rw [h1]
  have hlook1 : lookupEntry r1 db_name = some e := by
    have hL := lookupEntry_gocdb supply r db_name
    rw [hg] at hL
    exact hL
  have hlook2 : lookupEntry
      (updateEntry r1 db_name
        (importUpdate e (resolveTableName f tableName) df)) db_name
      = some (importUpdate e (resolveTableName f tableName) df) := by
    rw [lookupEntry_update, hlook1]
    rfl
  constructor
  · rw [hsnd, hfst]
    rw [import_file_success supply f tableName db_name sheet enc _ df hp hload]
    rw [gocdb_known supply _ db_name _ hlook2]
    rw [importUpdate_idem, updateEntry_updateEntry]
  · refine ⟨importUpdate e (resolveTableName f tableName) df, df, ?_, ?_, ?_,
      ?_⟩
    · rw [hsnd]
      exact hlook2
    · rw [hfst]
      exact countP_insertReplace e.store (resolveTableName f tableName) df
    · rw [hfst]
      exact lookupTable_insertReplace e.store (resolveTableName f tableName) df
    · rw [hfst]

/-- Witness for C6: importing the same `.csv` file twice into `"default"`
under the derived table name is idempotent, with exactly one matching table
afterwards. -/
theorem import_replace_idempotent_witness :
    import_file supply0 csvFile0 none "default" none none
        (import_file supply0 csvFile0 none "default" none none reg0).2
      = ((import_file supply0 csvFile0 none "default" none none reg0).1,
         (import_file supply0 csvFile0 none "default" none none reg0).2) ∧
    ∃ e1 df,
      lookupEntry (import_file supply0 csvFile0 none "default" none none
          reg0).2 "default" = some e1 ∧
      e1.store.countP (fun q =>
        q.1 == (import_file supply0 csvFile0 none "default" none none
          reg0).1.table) = 1 ∧
      lookupTable e1.store
          (import_file supply0 csvFile0 none "default" none none reg0).1.table
        = some df ∧
      (import_file supply0 csvFile0 none "default" none none reg0).1.statistics
        = some (mkStats df) :=
  import_replace_idempotent supply0 csvFile0 none "default" none none reg0
    (by decide)

/-- **C7.** `clean_database` on a known store reports `success` and returns
exactly the table list read from the backing catalog (`sqlite_master`), drops
them all and clears the bookkeeping set; on an unknown store it returns a
structured error and leaves the registry unchanged. -/
theorem clean_database_spec (r : Registry) (db_name : String) :
    (lookupEntry r db_name = none →
      clean_database r db_name
        = ({ status := "error",
             message := "数据库 " ++ db_name ++ " 不存在" }, r)) ∧
    (∀ e, lookupEntry r db_name = some e →
      (clean_database r db_name).1.status = "success" ∧
      (clean_database r db_name).1.deleted_tables = e.store.map (·.1) ∧
      ∃ e', lookupEntry (clean_database r db_name).2 db_name = some e' ∧
        e'.store = [] ∧ e'.tables = []) := by
  constructor
  · intro h
    unfold clean_database
    rw [h]
  · intro e h
    have hred : clean_database r db_name
        = ({ status := "success", message := "成功清理数据库 " ++ db_name,
             deleted_tables := e.store.map (·.1) },
           updateEntry r db_name
             { e with store := dropTables e.store (e.store.map (·.1)),
                      tables := [] }) := by
      unfold clean_database
      rw [h]
    rw [hred]
    refine ⟨rfl, rfl, ?_⟩
    refine ⟨⟨e.connId, e.path, dropTables e.store (e.store.map (·.1)), []⟩,
      ?_, ?_, rfl⟩
    · rw [lookupEntry_update, h]
      rfl
    · exact dropTables_catalog e.store

/-- Witness for C7: cleaning `"default"` (whose bookkeeping set `["ghost"]`
disagrees with the backing catalog) returns exactly the catalog's table names
and empties both; an unknown store name errors and changes nothing. -/
theorem clean_database_spec_witness :
    (clean_database reg0 "default").1.deleted_tables = ["t", "tz", "txy"] ∧
    entry0.tables = ["ghost"] ∧
    (∃ e', lookupEntry (clean_database reg0 "default").2 "default" = some e' ∧
      e'.store = [] ∧ e'.tables = []) ∧
    clean_database reg0 "nope"
      = ({ status := "error", message := "数据库 nope 不存在" }, reg0) := by
  obtain ⟨hs, hd, e', h1, h2, h3⟩ :=
    (clean_database_spec reg0 "default").2 entry0 (by decide)
  exact ⟨hd.trans (by decide), rfl, ⟨e', h1, h2, h3⟩,
    (clean_database_spec reg0 "nope").1 (by decide)⟩

/-- **C9.** Under the invariants that the uuid oracle yields 8-character
values, fresh values differ from all previously consumed ones, and every
existing entry's path was built from an earlier oracle index: the first
`get_or_create_db` call for an unknown name creates a fresh empty store at a
path distinct from every existing entry's path (uniquely suffixed), registers
it, and a subsequent call with the same name returns that same connection and
leaves the registry unchanged; for a known name the call returns the existing
connection unchanged. -/
theorem get_or_create_db_spec (supply : Nat → List Char) (r : Registry)
    (name : String)
    (h8 : ∀ i, i ≤ r.uuidSeq → (supply i).length = 8)
    (hinj : ∀ i, i < r.uuidSeq → supply i ≠ supply r.uuidSeq)
    (hpaths : ∀ p ∈ r.conns,
      ∃ i, i < r.uuidSeq ∧ p.2.path = mkDbPath supply p.1 i) :
    (lookupEntry r name = none →
      (get_or_create_db supply r name).1.store = [] ∧
      (get_or_create_db supply r name).1.tables = [] ∧
      (get_or_create_db supply r name).1.path
        = mkDbPath supply name r.uuidSeq ∧
      (get_or_create_db supply r name).2.conns
        = r.conns ++ [(name, (get_or_create_db supply r name).1)] ∧
      (∀ p ∈ r.conns, p.2.path ≠ (get_or_create_db supply r name).1.path) ∧
      get_or_create_db supply (get_or_create_db supply r name).2 name
        = ((get_or_create_db supply r name).1,
           (get_or_create_db supply r name).2)) ∧
    (∀ e, lookupEntry r name = some e →
      get_or_create_db supply r name = (e, r)) := by
  constructor
  · intro hnone
    have hsecond := gocdb_known supply (get_or_create_db supply r name).2 name
      (get_or_create_db supply r name).1 (lookupEntry_gocdb supply r name)
    have hred : get_or_create_db supply r name
        = ({ connId := r.uuidSeq, path := mkDbPath supply name r.uuidSeq,
             store := [], tables := [] },
           { conns := r.conns ++ [(name,
               { connId := r.uuidSeq, path := mkDbPath supply name r.uuidSeq,
                 store := [], tables := [] })],
             uuidSeq := r.uuidSeq + 1 }) := by
      unfold get_or_create_db
      rw [hnone]
    rw [hred] at hsecond ⊢
    refine ⟨rfl, rfl, rfl, rfl, ?_, hsecond⟩
    intro p hp
    obtain ⟨i, hi, hpath⟩ := hpaths p hp
    rw [hpath]
    intro hcontra
    exact hinj i hi (mkDbPath_inj_supply supply p.1 name i r.uuidSeq
      (h8 i (by omega)) (h8 _ le_rfl) hcontra)
  · intro e h
    exact gocdb_known supply r name e h

/-- Witness for C9: creating `"default"` in a registry already holding a
store built from oracle index 0 yields an empty store at a fresh path, and
the second call returns it unchanged. -/
theorem get_or_create_db_spec_witness :
    (get_or_create_db supply0 regW "default").1.store = [] ∧
    (get_or_create_db supply0 regW "default").1.path
      = mkDbPath supply0 "default" 1 ∧
    (∀ p ∈ regW.conns,
      p.2.path ≠ (get_or_create_db supply0 regW "default").1.path) ∧
    get_or_create_db supply0 (get_or_create_db supply0 regW "default").2
        "default"
      = ((get_or_create_db supply0 regW "default").1,
         (get_or_create_db supply0 regW "default").2) := by
  obtain ⟨h1, h2, h3, h4, h5, h6⟩ := (get_or_create_db_spec supply0 regW
    "default" (by decide) (by decide)
    (by
      intro p hp
      rcases List.mem_singleton.mp hp with rfl
      exact ⟨0, by decide, rfl⟩)).1 (by decide)
  exact ⟨h1, h3, h5, h6⟩

/-- **C10.** `describe_table` on a known table reports, for each numeric
column, `MIN`, `MAX` and an `avg` guarded by Python truthiness: an average of
exactly 0 and a `NULL` average (entirely missing column) are both reported as
`None`, while a nonzero average is rounded to 2 decimal places. -/
theorem describe_avg_spec (r : Registry) (table_name db_name : String)
    (e : DBEntry) (df : DF) (he : lookupEntry r db_name = some e)
    (ht : lookupTable e.store table_name = some df) (hne : ¬ df.cols = []) :
    (describe_table r table_name db_name).numeric_statistics
      = (df.cols.filter (·.numeric)).map (fun c =>
          ((c.name,
            { min := sqlMin c.cells, max := sqlMax c.cells,
              avg := reportedAvg (sqlAvg c.cells) }) : String × NumStat)) ∧
    (∀ cells, sqlAvg cells = some 0 → reportedAvg (sqlAvg cells) = none) ∧
    reportedAvg none = none ∧
    (∀ v : ℚ, ¬ v = 0 → reportedAvg (some v) = some (pyRound2 v)) ∧
    (∀ c : Column, (∀ x ∈ c.cells, x = none) → sqlAvg c.cells = none) := by
  refine ⟨?_, ?_, rfl, ?_, ?_⟩
  · rw [describe_table_known r table_name db_name e df he ht]
    unfold descBody
    rw [if_neg hne]
  · intro cells hz
    rw [hz]
    rfl
  · intro v hv
    show (if v = 0 then none else some (pyRound2 v)) = some (pyRound2 v)
    rw [if_neg hv]
  · intro c hall
    have hnil : c.cells.filterMap id = [] := by
      rw [List.filterMap_eq_nil_iff]
      intro a ha
      exact hall a ha
    unfold sqlAvg
    rw [hnil]
    rfl

/-- Witness for C10: on table `"tz"` the zero-average column `"z"` reports
`avg = None` while `"w"` (average exactly 2) reports `some 2`. -/
theorem describe_avg_spec_witness :
    (describe_table reg0 "tz" "default").numeric_statistics
      = [("z", { min := some (-1), max := some 1, avg := none }),
         ("w", { min := some 2, max := some 2, avg := some 2 })] ∧
    sqlAvg colZero.cells = some 0 ∧
    reportedAvg (sqlAvg colZero.cells) = none := by
  obtain ⟨h1, h2, h3, h4, h5⟩ := describe_avg_spec reg0 "tz" "default" entry0
    dfZero (by decide) (by decide) (by decide)
  exact ⟨h1.trans (by decide), by decide, h2 colZero.cells (by decide)⟩

end DataAnalysis
